import Mathlib

/-!
Shallow embedding of the `nba_scoring/shot_maps` scripts
(`robust_fetch_all.py` and `draw_shot_chart.py`).

The fetcher `get_all_shots_season` is modelled as a pure function over
an explicit file-system map (`FileSys`), a static team list, and a
network oracle `fetch : Team → Except String DataFrame` standing for the
shot-chart endpoint call (`Except.error` models a raised exception).
Besides its return value the model emits an event trace (`Ev`) recording
every endpoint call, file write and file deletion, so that statements
about "no network activity" or "no file written" are statements about
the trace.  A `DataFrame` is the ordered list of its rows.

The season driver `get_all_seasons` is embedded with the per-season call
abstracted as an oracle `String → Except String DataFrame`, so that the
driver's `except` branch (which catches an exception escaping the
fetcher) is expressible; `seasonStep` / `get_all_seasons_run` compose
the driver with the embedded fetcher itself.

The renderer functions of `draw_shot_chart.py` are embedded as pure
functions returning a description of the matplotlib calls they perform.
-/

/-- A shot record, restricted to the columns the repository actually
inspects (`SHOT_MADE_FLAG`, `LOC_X`, `LOC_Y`); all other columns of the
upstream response are never read and are elided. -/
structure Row where
  SHOT_MADE_FLAG : Int
  LOC_X : Int
  LOC_Y : Int
deriving DecidableEq, Repr

/-- A pandas DataFrame, as the ordered list of its rows. -/
abbrev DataFrame := List Row

/-- The working directory: a map from file name to content.  `none`
means the file does not exist. -/
abbrev FileSys := String → Option DataFrame

/-- A team record from `teams.get_teams()`: the two fields the fetcher
reads. -/
structure Team where
  id : Nat
  full_name : String
deriving DecidableEq, Repr

/-- Observable effects of the fetcher: a shot-chart endpoint call for a
team, a whole-file write, a file deletion. -/
inductive Ev where
  | netCall (team_id : Nat)
  | fileWrite (name : String) (content : DataFrame)
  | fileDelete (name : String)
deriving DecidableEq, Repr

/-- `nba_shots_{season}_all.csv` (robust_fetch_all.py line 22). -/
def outputFile (season : String) : String :=
  "nba_shots_" ++ season ++ "_all.csv"

/-- `nba_shots_{season}_progress.csv` (robust_fetch_all.py lines 64, 96). -/
def progressFile (season : String) : String :=
  "nba_shots_" ++ season ++ "_progress.csv"

/-- Effect of one event on the file system: a write overwrites the whole
file, a deletion removes it, an endpoint call leaves it unchanged. -/
def applyEv (fs : FileSys) (e : Ev) : FileSys :=
  match e with
  | Ev.netCall _ => fs
  | Ev.fileWrite n c => fun m => if m = n then some c else fs m
  | Ev.fileDelete n => fun m => if m = n then none else fs m

/-- File system resulting from replaying an event trace. -/
def runFS (fs : FileSys) (evs : List Ev) : FileSys :=
  evs.foldl applyEv fs

/-- Mutable state of the team loop of `get_all_shots_season`: the
`all_shots` accumulator, the `failed_teams` list, and the event trace
emitted so far. -/
structure LoopState where
  all_shots : List DataFrame
  failed_teams : List (String × String)
  events : List Ev
deriving Repr

/-- One iteration of the team loop (robust_fetch_all.py lines 39-73) on
the enumerated pair `(i, team)` (`i` counts from 1).  Returns the new
state together with the events of just this iteration.  On success the
result is appended to `all_shots` only when nonempty (line 55); the
checkpoint write (lines 62-64) sits inside the `try`, so on an
exception (`Except.error`) the iteration only records the failed team —
the checkpoint for that index is skipped. -/
def teamStepCore (season : String) (save_every : Nat)
    (fetch : Team → Except String DataFrame)
    (st : LoopState) (it : Nat × Team) : LoopState × List Ev :=
  match fetch it.2 with
  | Except.ok df =>
      let shots := if 0 < df.length then st.all_shots ++ [df] else st.all_shots
      let evs := [Ev.netCall it.2.id] ++
        (if it.1 % save_every = 0 ∧ shots ≠ [] then
          [Ev.fileWrite (progressFile season) shots.flatten] else [])
      ({ all_shots := shots, failed_teams := st.failed_teams,
         events := st.events ++ evs }, evs)
  | Except.error e =>
      let evs := [Ev.netCall it.2.id]
      ({ all_shots := st.all_shots,
         failed_teams := st.failed_teams ++ [(it.2.full_name, e)],
         events := st.events ++ evs }, evs)

/-- The state transformer of one loop iteration. -/
def teamStep (season : String) (save_every : Nat)
    (fetch : Team → Except String DataFrame)
    (st : LoopState) (it : Nat × Team) : LoopState :=
  (teamStepCore season save_every fetch st it).1

/-- The events emitted by one loop iteration. -/
def stepTrace (season : String) (save_every : Nat)
    (fetch : Team → Except String DataFrame)
    (st : LoopState) (it : Nat × Team) : List Ev :=
  (teamStepCore season save_every fetch st it).2

/-- Loop state before the first team. -/
def initState : LoopState := ⟨[], [], []⟩

/-- The full team loop: `for i, team in enumerate(all_teams, 1)`. -/
def runLoop (season : String) (save_every : Nat)
    (fetch : Team → Except String DataFrame)
    (all_teams : List Team) : LoopState :=
  (List.enumFrom 1 all_teams).foldl (teamStep season save_every fetch) initState

/-- Loop state after the first `k` teams have been processed. -/
def stateAfter (season : String) (save_every : Nat)
    (fetch : Team → Except String DataFrame)
    (all_teams : List Team) (k : Nat) : LoopState :=
  runLoop season save_every fetch (all_teams.take k)

/-- `get_all_shots_season(season, delay, save_every)`
(robust_fetch_all.py lines 9-103), over an explicit file system,
team list and network oracle.  Returns the DataFrame the Python
function returns together with the event trace of the call.
`delay` (`time.sleep`) has no observable effect in this model.
If the output file exists it is read back and returned with an empty
trace (lines 23-25).  Otherwise the team loop runs; if any team
produced data the concatenation is written to the output file and the
progress file is deleted when it exists (lines 84-100); otherwise an
empty DataFrame is returned with nothing written (lines 101-103). -/
def get_all_shots_season (season : String) (delay : Nat) (save_every : Nat)
    (files : FileSys) (all_teams : List Team)
    (fetch : Team → Except String DataFrame) : DataFrame × List Ev :=
  let _ := delay
  let output_file := outputFile season
  match files output_file with
  | some df => (df, [])
  | none =>
      let st := runLoop season save_every fetch all_teams
      if st.all_shots ≠ [] then
        let combined := st.all_shots.flatten
        let evs := st.events ++ [Ev.fileWrite output_file combined]
        let fsNow := runFS files evs
        let evs := if (fsNow (progressFile season)).isSome then
            evs ++ [Ev.fileDelete (progressFile season)] else evs
        (combined, evs)
      else ([], st.events)

/-- The per-team results that the loop accumulates: for each team in
list order, the fetched DataFrame when the fetch succeeded with at
least one row. -/
def successes (fetch : Team → Except String DataFrame)
    (ts : List Team) : List DataFrame :=
  ts.filterMap (fun t =>
    match fetch t with
    | Except.ok df => if 0 < df.length then some df else none
    | Except.error _ => none)

/-- True when a team's fetch either raised or returned no rows. -/
def failOrEmpty (r : Except String DataFrame) : Bool :=
  match r with
  | Except.ok df => df.isEmpty
  | Except.error _ => true

/-- Python's `str(n).zfill(width)` for the strings `toString` produces:
pad with zeros on the left up to `width`, after the sign when the
string starts with one. -/
def zfill (s : String) (width : Nat) : String :=
  if width ≤ s.length then s
  else
    match s.data with
    | '-' :: rest =>
        "-" ++ String.mk (List.replicate (width - s.length) '0') ++ String.mk rest
    | _ => String.mk (List.replicate (width - s.length) '0') ++ s

/-- `f"{year}-{str(year-2000+1).zfill(2)}"` (robust_fetch_all.py
line 127). -/
def seasonString (year : Int) : String :=
  toString year ++ "-" ++ zfill (toString (year - 2000 + 1)) 2

/-- The season string as the spec describes it: the year followed by
the two-digit representation of the next year. -/
def seasonStringSpec (year : Int) : String :=
  toString year ++ "-" ++ zfill (toString ((year + 1) % 100)) 2

/-- `range(start_year, end_year + 1)` as a list of years. -/
def yearRange (start_year end_year : Int) : List Int :=
  (List.range (end_year + 1 - start_year).toNat).map
    (fun k : Nat => start_year + (k : Int))

/-- One entry of the driver's `results` dict: `{'success': True,
'shots': n, 'file': f}` or `{'success': False, 'error': e}`. -/
inductive SeasonOutcome where
  | success (shots : Nat) (file : String)
  | failure (error : String)
deriving DecidableEq, Repr

/-- `get_all_seasons(start_year, end_year, ...)` (robust_fetch_all.py
lines 106-178) with the call to `get_all_shots_season` abstracted as
`runSeason` (`Except.error` models an exception escaping the fetcher,
which the driver's `except` catches and records, lines 140-145).
Returns the `results` mapping in insertion order. -/
def get_all_seasons (start_year end_year : Int)
    (runSeason : String → Except String DataFrame) :
    List (String × SeasonOutcome) :=
  (yearRange start_year end_year).map (fun year =>
    let s := seasonString year
    match runSeason s with
    | Except.ok df => (s, SeasonOutcome.success df.length (outputFile s))
    | Except.error e => (s, SeasonOutcome.failure e))

/-- The final summary's `total_shots` (robust_fetch_all.py lines
168-172): the sum of the shot counts of the successful seasons. -/
def totalShots (results : List (String × SeasonOutcome)) : Nat :=
  (results.filterMap (fun p =>
    match p.2 with
    | SeasonOutcome.success n _ => some n
    | SeasonOutcome.failure _ => none)).sum

/-- Driver state when the driver actually runs the embedded fetcher:
the evolving file system, the `results` list, and the accumulated
event trace. -/
structure SeasonsState where
  fs : FileSys
  results : List (String × SeasonOutcome)
  trace : List Ev

/-- One driver iteration running the embedded `get_all_shots_season`
itself (robust_fetch_all.py lines 126-145).  The embedded fetcher is a
total function, so the `except` branch of the driver is dead here and
the outcome is always `success` — with the shot count of whatever the
fetcher returned and the output-file path, whether or not that file
was written. -/
def seasonStep (delay save_every : Nat) (all_teams : List Team)
    (fetch : String → Team → Except String DataFrame)
    (st : SeasonsState) (year : Int) : SeasonsState :=
  let s := seasonString year
  let r := get_all_shots_season s delay save_every st.fs all_teams (fetch s)
  { fs := runFS st.fs r.2,
    results := st.results ++ [(s, SeasonOutcome.success r.1.length (outputFile s))],
    trace := st.trace ++ r.2 }

/-- The composed driver: the year loop of `get_all_seasons` running the
embedded fetcher on an explicit initial file system. -/
def get_all_seasons_run (start_year end_year : Int) (delay save_every : Nat)
    (all_teams : List Team)
    (fetch : String → Team → Except String DataFrame)
    (fs₀ : FileSys) : SeasonsState :=
  (yearRange start_year end_year).foldl
    (seasonStep delay save_every all_teams fetch) ⟨fs₀, [], []⟩

/-- One `ax.scatter(xs, ys, c, s, alpha)` call; `alphaPercent` is the
alpha channel in percent (the source passes 0.6). -/
structure ScatterCall where
  xs : List Int
  ys : List Int
  c : String
  s : Nat
  alphaPercent : Nat
deriving DecidableEq, Repr

/-- `draw_shots(ax, df)` (draw_shot_chart.py lines 25-30): the made
(`SHOT_MADE_FLAG == 1`) rows as one green scatter call and the missed
(`SHOT_MADE_FLAG == 0`) rows as one red scatter call, both at
`(LOC_X, LOC_Y + 60)`. -/
def draw_shots (df : DataFrame) : ScatterCall × ScatterCall :=
  let made_shots := df.filter (fun r => r.SHOT_MADE_FLAG == 1)
  let missed_shots := df.filter (fun r => r.SHOT_MADE_FLAG == 0)
  (⟨made_shots.map (fun r => r.LOC_X),
    made_shots.map (fun r => r.LOC_Y + 60), "green", 10, 60⟩,
   ⟨missed_shots.map (fun r => r.LOC_X),
    missed_shots.map (fun r => r.LOC_Y + 60), "red", 10, 60⟩)

/-- One `ax.plot([x1,x2],[y1,y2], linewidth, color)` call. -/
structure Segment where
  xs : List Int
  ys : List Int
  linewidth : Nat
  color : String
deriving DecidableEq, Repr

/-- An artist added with `ax.add_artist`: an elliptical arc or a
circle, with the stroke color. -/
inductive Artist where
  | arc (center : Int × Int) (width height : Int) (theta1 theta2 : Int)
      (color : String)
  | circle (center : Int × Int) (radius : Int) (color : String)
deriving DecidableEq, Repr

/-- Everything `create_court` does to the axes and to the global
matplotlib state. -/
structure CourtRender where
  plots : List Segment
  artists : List Artist
  xlim : Int × Int
  ylim : Int × Int
  xticks : List Int
  yticks : List Int
  rcFontFamily : String
  rcFontSize : Nat
  rcAxesLinewidth : Nat
deriving DecidableEq, Repr

/-- `create_court(ax, color)` (draw_shot_chart.py lines 5-23),
transcribed call for call. -/
def create_court (color : String) : CourtRender :=
  { plots :=
      [⟨[-220, -220], [0, 140], 2, color⟩,
       ⟨[220, 220], [0, 140], 2, color⟩,
       ⟨[-80, -80], [0, 190], 2, color⟩,
       ⟨[80, 80], [0, 190], 2, color⟩,
       ⟨[-60, -60], [0, 190], 2, color⟩,
       ⟨[60, 60], [0, 190], 2, color⟩,
       ⟨[-80, 80], [190, 190], 2, color⟩,
       ⟨[-30, 30], [40, 40], 2, color⟩],
    artists :=
      [Artist.arc (0, 140) 440 315 0 180 color,
       Artist.circle (0, 190) 60 color,
       Artist.circle (0, 60) 15 color],
    xlim := (-250, 250),
    ylim := (0, 470),
    xticks := [],
    yticks := [],
    rcFontFamily := "Avenir",
    rcFontSize := 18,
    rcAxesLinewidth := 2 }

/-! ### Helper lemmas about the team loop -/

theorem teamStep_events (season : String) (se : Nat)
    (fetch : Team → Except String DataFrame) (st : LoopState) (it : Nat × Team) :
    (teamStep season se fetch st it).events =
      st.events ++ stepTrace season se fetch st it := by
  unfold teamStep stepTrace teamStepCore
  cases hf : fetch it.2 <;> simp [hf]

theorem teamStep_failed_or_ok (season : String) (se : Nat)
    (fetch : Team → Except String DataFrame) (st : LoopState) (it : Nat × Team) :
    stepTrace season se fetch st it = [Ev.netCall it.2.id] ∨
    (stepTrace season se fetch st it =
        [Ev.netCall it.2.id,
         Ev.fileWrite (progressFile season)
           ((teamStep season se fetch st it).all_shots.flatten)] ∧
      (teamStep season se fetch st it).all_shots ≠ []) := by
  unfold stepTrace teamStep teamStepCore
  cases hf : fetch it.2 with
  | error e => left; simp [hf]
  | ok df =>
    simp only [hf]
    by_cases hcond : it.1 % se = 0 ∧
        (if 0 < df.length then st.all_shots ++ [df] else st.all_shots) ≠ []
    · right
      constructor
      · simp [hcond]
      · simpa using hcond.2
    · left; simp [hcond]

theorem runFS_append (fs : FileSys) (l₁ l₂ : List Ev) :
    runFS fs (l₁ ++ l₂) = runFS (runFS fs l₁) l₂ := by
  simp [runFS, List.foldl_append]

theorem runFS_netCall (fs : FileSys) (tid : Nat) :
    runFS fs [Ev.netCall tid] = fs := by
  simp [runFS, applyEv]

theorem runFS_of_netCalls (evs : List Ev) :
    (∀ e ∈ evs, ∃ tid, e = Ev.netCall tid) → ∀ fs : FileSys, runFS fs evs = fs := by
  induction evs with
  | nil => intro _ fs; rfl
  | cons e evs ih =>
    intro h fs
    obtain ⟨tid, htid⟩ := h e (List.mem_cons_self e evs)
    have : runFS fs (e :: evs) = runFS (applyEv fs e) evs := rfl
    rw [this, htid]
    exact ih (fun e' he' => h e' (List.mem_cons_of_mem _ he')) _

theorem foldl_all_shots (season : String) (se : Nat)
    (fetch : Team → Except String DataFrame) :
    ∀ (ts : List Team) (i : Nat) (st : LoopState),
      ((List.enumFrom i ts).foldl (teamStep season se fetch) st).all_shots =
        st.all_shots ++ successes fetch ts := by
  intro ts
  induction ts with
  | nil => intro i st; simp [successes, List.enumFrom]
  | cons t ts ih =>
    intro i st
    simp only [List.enumFrom, List.foldl_cons]
    rw [ih]
    unfold successes
    rw [List.filterMap_cons]
    cases hf : fetch t with
    | ok df =>
      simp only [teamStep, teamStepCore, hf]
      by_cases hlen : 0 < df.length
      · simp [hlen, successes]
      · simp [hlen, successes]
    | error e =>
      simp [teamStep, teamStepCore, hf, successes]

theorem runLoop_all_shots (season : String) (se : Nat)
    (fetch : Team → Except String DataFrame) (ts : List Team) :
    (runLoop season se fetch ts).all_shots = successes fetch ts := by
  unfold runLoop
  rw [foldl_all_shots]
  simp [initState]

theorem foldl_all_fail (season : String) (se : Nat)
    (fetch : Team → Except String DataFrame) :
    ∀ (ts : List Team) (i : Nat) (st : LoopState),
      (∀ t ∈ ts, failOrEmpty (fetch t) = true) → st.all_shots = [] →
      ((List.enumFrom i ts).foldl (teamStep season se fetch) st).all_shots = [] ∧
      (∀ e ∈ ((List.enumFrom i ts).foldl (teamStep season se fetch) st).events,
        e ∈ st.events ∨ ∃ tid, e = Ev.netCall tid) := by
  intro ts
  induction ts with
  | nil =>
    intro i st _ hsh
    simp only [List.enumFrom, List.foldl_nil]
    exact ⟨hsh, fun e he => Or.inl he⟩
  | cons t ts ih =>
    intro i st hall hsh
    simp only [List.enumFrom, List.foldl_cons]
    have hft : failOrEmpty (fetch t) = true := hall t (List.mem_cons_self t ts)
    have hstep : (teamStep season se fetch st (i, t)).all_shots = [] ∧
        (teamStep season se fetch st (i, t)).events = st.events ++ [Ev.netCall t.id] := by
      unfold teamStep teamStepCore
      cases hf : fetch t with
      | ok df =>
        have hdf : df = [] := by
          simpa [failOrEmpty, hf, List.isEmpty_iff] using hft
        subst hdf
        simp [hsh]
      | error e => simp [hsh]
    obtain ⟨h1, h2⟩ :=
      ih (i + 1) (teamStep season se fetch st (i, t)) (fun t' ht' => hall t' (List.mem_cons_of_mem _ ht')) hstep.1
    refine ⟨h1, fun e he => ?_⟩
    rcases h2 e he with hmem | hnc
    · rw [hstep.2] at hmem
      rcases List.mem_append.mp hmem with h | h
      · exact Or.inl h
      · right
        exact ⟨t.id, by simpa using h⟩
    · exact Or.inr hnc

theorem stateAfter_zero (season : String) (se : Nat)
    (fetch : Team → Except String DataFrame) (ts : List Team) :
    stateAfter season se fetch ts 0 = initState := by
  simp [stateAfter, runLoop, List.enumFrom]

theorem stateAfter_succ (season : String) (se : Nat)
    (fetch : Team → Except String DataFrame) (ts : List Team) (k : Nat)
    (h : k < ts.length) :
    stateAfter season se fetch ts (k + 1) =
      teamStep season se fetch (stateAfter season se fetch ts k) (k + 1, ts[k]) := by
  unfold stateAfter runLoop
  rw [List.take_succ, List.getElem?_eq_getElem h]
  have hlen : (ts.take k).length = k := by
    rw [List.length_take]
    omega
  rw [List.enumFrom_append, List.foldl_append, hlen]
  simp [List.enumFrom, Nat.add_comm]

theorem progress_runFS (season : String) (se : Nat)
    (fetch : Team → Except String DataFrame) (files : FileSys) (ts : List Team) :
    ∀ k : Nat, k ≤ ts.length →
      (∃ c, Ev.fileWrite (progressFile season) c ∈
          (stateAfter season se fetch ts k).events) →
      ∃ m, m ≤ k ∧ (stateAfter season se fetch ts m).all_shots ≠ [] ∧
        runFS files (stateAfter season se fetch ts k).events (progressFile season) =
          some ((stateAfter season se fetch ts m).all_shots.flatten) := by
  intro k
  induction k with
  | zero =>
    intro _ hc
    rw [stateAfter_zero] at hc
    obtain ⟨c, hc⟩ := hc
    simp [initState] at hc
  | succ k ih =>
    intro hk hc
    have hklt : k < ts.length := by omega
    rw [stateAfter_succ season se fetch ts k hklt] at hc ⊢
    rw [teamStep_events] at hc ⊢
    rcases teamStep_failed_or_ok season se fetch
        (stateAfter season se fetch ts k) (k + 1, ts[k]) with hsh | ⟨hsh, hne⟩
    · rw [hsh] at hc ⊢
      obtain ⟨c, hc⟩ := hc
      rcases List.mem_append.mp hc with hmem | hmem
      · obtain ⟨m, hm, hmne, hmfs⟩ := ih (by omega) ⟨c, hmem⟩
        refine ⟨m, by omega, hmne, ?_⟩
        rw [runFS_append, runFS_netCall]
        exact hmfs
      · simp at hmem
    · rw [hsh] at hc ⊢
      refine ⟨k + 1, le_refl _, ?_, ?_⟩
      · rw [stateAfter_succ season se fetch ts k hklt]
        exact hne
      · rw [stateAfter_succ season se fetch ts k hklt]
        rw [runFS_append]
        simp [runFS, applyEv]

/-! ### Claim theorems -/

/-- C1: for every season whose final output file `nba_shots_{season}_all.csv`
already exists, `get_all_shots_season` performs zero shot-chart endpoint
calls, writes no file (the event trace is empty), and returns exactly the
contents loaded from that file. -/
theorem C1_skip_existing (season : String) (delay save_every : Nat)
    (files : FileSys) (ts : List Team) (fetch : Team → Except String DataFrame)
    (df : DataFrame) (h : files (outputFile season) = some df) :
    get_all_shots_season season delay save_every files ts fetch = (df, []) := by
  simp [get_all_shots_season, h]

def c1files : FileSys :=
  fun n => if n = outputFile "2024-25" then some [⟨1, 5, 7⟩] else none

/-- Witness for C1 at a concrete file system holding the output file. -/
theorem C1_skip_existing_witness :
    get_all_shots_season "2024-25" 0 5 c1files [⟨1, "A"⟩]
      (fun _ => Except.error "down") = ([⟨1, 5, 7⟩], []) :=
  C1_skip_existing "2024-25" 0 5 c1files [⟨1, "A"⟩]
    (fun _ => Except.error "down") [⟨1, 5, 7⟩] rfl

/-- C3: when the output file is absent and at least one team succeeds with
a nonzero row count, the dataset `get_all_shots_season` returns and writes
to the output file is the concatenation of exactly the successful nonzero
per-team results in team-list order (each team's internal row order
preserved by `flatten`), so its row count is the sum of those teams' row
counts. -/
theorem C3_final_concat (season : String) (delay save_every : Nat)
    (files : FileSys) (ts : List Team) (fetch : Team → Except String DataFrame)
    (hout : files (outputFile season) = none)
    (hne : successes fetch ts ≠ []) :
    (get_all_shots_season season delay save_every files ts fetch).1 =
        (successes fetch ts).flatten ∧
    Ev.fileWrite (outputFile season) ((successes fetch ts).flatten) ∈
        (get_all_shots_season season delay save_every files ts fetch).2 ∧
    (get_all_shots_season season delay save_every files ts fetch).1.length =
        ((successes fetch ts).map List.length).sum := by
  have hsh := runLoop_all_shots season save_every fetch ts
  simp only [get_all_shots_season, hout]
  rw [hsh, if_pos hne]
  refine ⟨rfl, ?_, List.length_flatten _⟩
  split
  · exact List.mem_append_left _ (List.mem_append_right _ (List.mem_singleton.mpr rfl))
  · exact List.mem_append_right _ (List.mem_singleton.mpr rfl)

def c3files : FileSys := fun _ => none

def c3fetch : Team → Except String DataFrame :=
  fun t =>
    if t.id = 1 then Except.ok [⟨1, 10, 20⟩, ⟨0, 30, 40⟩]
    else if t.id = 2 then Except.error "timeout"
    else Except.ok [⟨1, 50, 60⟩]

/-- Witness for C3: three teams, the second fails, the final dataset is
the concatenation of the first and third teams' rows. -/
theorem C3_final_concat_witness :
    (get_all_shots_season "2024-25" 0 5 c3files [⟨1, "A"⟩, ⟨2, "B"⟩, ⟨3, "C"⟩] c3fetch).1 =
        (successes c3fetch [⟨1, "A"⟩, ⟨2, "B"⟩, ⟨3, "C"⟩]).flatten ∧
    Ev.fileWrite (outputFile "2024-25")
        ((successes c3fetch [⟨1, "A"⟩, ⟨2, "B"⟩, ⟨3, "C"⟩]).flatten) ∈
      (get_all_shots_season "2024-25" 0 5 c3files [⟨1, "A"⟩, ⟨2, "B"⟩, ⟨3, "C"⟩] c3fetch).2 ∧
    (get_all_shots_season "2024-25" 0 5 c3files [⟨1, "A"⟩, ⟨2, "B"⟩, ⟨3, "C"⟩] c3fetch).1.length =
        ((successes c3fetch [⟨1, "A"⟩, ⟨2, "B"⟩, ⟨3, "C"⟩]).map List.length).sum :=
  C3_final_concat "2024-25" 0 5 c3files [⟨1, "A"⟩, ⟨2, "B"⟩, ⟨3, "C"⟩] c3fetch rfl
    (by decide)

/-- C4: when the output file is absent and every team's fetch fails or
returns no rows, `get_all_shots_season` returns an empty dataset and its
trace contains no file write at all — in particular neither the output
file nor the progress-snapshot file is written. -/
theorem C4_all_fail (season : String) (delay save_every : Nat)
    (files : FileSys) (ts : List Team) (fetch : Team → Except String DataFrame)
    (hout : files (outputFile season) = none)
    (hfail : ∀ t ∈ ts, failOrEmpty (fetch t) = true) :
    (get_all_shots_season season delay save_every files ts fetch).1 = [] ∧
    ∀ n c, Ev.fileWrite n c ∉
      (get_all_shots_season season delay save_every files ts fetch).2 := by
  obtain ⟨h1, h2⟩ := foldl_all_fail season save_every fetch ts 1 initState hfail rfl
  simp only [get_all_shots_season, hout]
  rw [show runLoop season save_every fetch ts =
      (List.enumFrom 1 ts).foldl (teamStep season save_every fetch) initState from rfl]
  rw [if_neg (by simp [h1])]
  refine ⟨rfl, fun n c hc => ?_⟩
  rcases h2 _ hc with hmem | ⟨tid, htid⟩
  · simp [initState] at hmem
  · exact Ev.noConfusion htid

def c4fetch : Team → Except String DataFrame :=
  fun t => if t.id = 1 then Except.error "timeout" else Except.ok []

/-- Witness for C4: one team raises, the other returns no rows; the
result is empty and nothing is written. -/
theorem C4_all_fail_witness :
    (get_all_shots_season "2024-25" 0 5 c3files [⟨1, "A"⟩, ⟨2, "B"⟩] c4fetch).1 = [] ∧
    ∀ n c, Ev.fileWrite n c ∉
      (get_all_shots_season "2024-25" 0 5 c3files [⟨1, "A"⟩, ⟨2, "B"⟩] c4fetch).2 :=
  C4_all_fail "2024-25" 0 5 c3files [⟨1, "A"⟩, ⟨2, "B"⟩] c4fetch rfl (by decide)

/-- C7: lifecycle of the progress-snapshot file when the output file is
initially absent.  First conjunct (successful completion): when at least
one team produced data, replaying the whole trace of
`get_all_shots_season` leaves no progress file.  Second conjunct
(interruption): replaying only the events of the first `k` loop
iterations — the file-system state if the process dies there — yields a
file system in which, provided some checkpoint has fired among those
iterations, the progress file exists and holds the partial content
accumulated up to the latest checkpoint. -/
theorem C7_progress_lifecycle (season : String) (delay save_every : Nat)
    (files : FileSys) (ts : List Team) (fetch : Team → Except String DataFrame)
    (hout : files (outputFile season) = none) :
    (successes fetch ts ≠ [] →
      runFS files ((get_all_shots_season season delay save_every files ts fetch).2)
        (progressFile season) = none) ∧
    (∀ k, k ≤ ts.length →
      (∃ c, Ev.fileWrite (progressFile season) c ∈
          (stateAfter season save_every fetch ts k).events) →
      ∃ m, m ≤ k ∧ (stateAfter season save_every fetch ts m).all_shots ≠ [] ∧
        runFS files (stateAfter season save_every fetch ts k).events
            (progressFile season) =
          some ((stateAfter season save_every fetch ts m).all_shots.flatten)) := by
  constructor
  · intro hne
    have hsh := runLoop_all_shots season save_every fetch ts
    simp only [get_all_shots_season, hout]
    rw [hsh, if_pos hne]
    split
    · rename_i hsome
      rw [runFS_append]
      simp [runFS, applyEv]
    · rename_i hnone
      dsimp only
      exact Option.not_isSome_iff_eq_none.mp (by simp [hnone])
  · exact progress_runFS season save_every fetch files ts

def c7fetch : Team → Except String DataFrame :=
  fun _ => Except.ok [⟨1, 1, 1⟩]

/-- Witness for C7: two teams, `save_every = 1`.  After the full run the
progress file is gone; interrupted after the first iteration (whose
checkpoint fired) it is present with the partial content. -/
theorem C7_progress_lifecycle_witness :
    runFS c3files
        ((get_all_shots_season "2024-25" 0 1 c3files [⟨1, "A"⟩, ⟨2, "B"⟩] c7fetch).2)
        (progressFile "2024-25") = none ∧
    ∃ m, m ≤ 1 ∧
      (stateAfter "2024-25" 1 c7fetch [⟨1, "A"⟩, ⟨2, "B"⟩] m).all_shots ≠ [] ∧
      runFS c3files (stateAfter "2024-25" 1 c7fetch [⟨1, "A"⟩, ⟨2, "B"⟩] 1).events
          (progressFile "2024-25") =
        some ((stateAfter "2024-25" 1 c7fetch [⟨1, "A"⟩, ⟨2, "B"⟩] m).all_shots.flatten) :=
  ⟨(C7_progress_lifecycle "2024-25" 0 1 c3files [⟨1, "A"⟩, ⟨2, "B"⟩] c7fetch rfl).1
      (by decide),
   (C7_progress_lifecycle "2024-25" 0 1 c3files [⟨1, "A"⟩, ⟨2, "B"⟩] c7fetch rfl).2
      1 (by decide) ⟨[⟨1, 1, 1⟩], by decide⟩⟩

/-! ### Season strings and the driver -/

theorem seasonString_eq_spec (year : Int) (h1 : 1999 ≤ year) (h2 : year ≤ 2098) :
    seasonString year = seasonStringSpec year := by
  unfold seasonString seasonStringSpec
  have h : year - 2000 + 1 = (year + 1) % 100 := by omega
  rw [h]

theorem get_all_seasons_keys (a b : Int)
    (runSeason : String → Except String DataFrame) :
    (get_all_seasons a b runSeason).map Prod.fst =
      (yearRange a b).map seasonString := by
  unfold get_all_seasons
  rw [List.map_map]
  apply List.map_congr_left
  intro y _
  cases h : runSeason (seasonString y) <;> simp [h]

theorem yearRange_sorted (a b : Int) : List.Sorted (· < ·) (yearRange a b) := by
  unfold yearRange
  refine List.Pairwise.map (fun k : Nat => a + (k : Int)) ?_
    (List.pairwise_lt_range ((b + 1 - a).toNat))
  intro x y hxy
  dsimp only
  omega

/-- C5 (amended): for every year of the driver's range between 1999 and
2098, the derived season string is the year followed by the two-digit
representation of the next year, and the seasons are attempted in
ascending year order.  (Outside that window the code's
`str(year-2000+1).zfill(2)` diverges from the two-digit next year, see
the counterexample at 1998.) -/
theorem C5_season_strings (a b : Int)
    (runSeason : String → Except String DataFrame) :
    (get_all_seasons a b runSeason).map Prod.fst =
      (yearRange a b).map seasonString ∧
    List.Sorted (· < ·) (yearRange a b) ∧
    ∀ year ∈ yearRange a b, 1999 ≤ year → year ≤ 2098 →
      seasonString year = seasonStringSpec year :=
  ⟨get_all_seasons_keys a b runSeason, yearRange_sorted a b,
   fun year _ h1 h2 => seasonString_eq_spec year h1 h2⟩

/-- Witness for C5: the concrete examples the claim cites (2000 → "2000-01",
2005 → "2005-06", 2025 → "2025-26", 1999 → "1999-00"). -/
theorem C5_season_strings_witness :
    seasonString 1999 = seasonStringSpec 1999 ∧
    seasonString 2000 = seasonStringSpec 2000 ∧
    seasonString 2005 = seasonStringSpec 2005 ∧
    seasonString 2025 = seasonStringSpec 2025 ∧
    seasonString 1999 = "1999-00" ∧ seasonString 2000 = "2000-01" ∧
    seasonString 2005 = "2005-06" ∧ seasonString 2025 = "2025-26" :=
  ⟨(C5_season_strings 1999 2025 (fun _ => Except.ok [])).2.2 1999
      (by decide) (by decide) (by decide),
   (C5_season_strings 1999 2025 (fun _ => Except.ok [])).2.2 2000
      (by decide) (by decide) (by decide),
   (C5_season_strings 1999 2025 (fun _ => Except.ok [])).2.2 2005
      (by decide) (by decide) (by decide),
   (C5_season_strings 1999 2025 (fun _ => Except.ok [])).2.2 2025
      (by decide) (by decide) (by decide),
   by decide, by decide, by decide, by decide⟩

/-- Counterexample for C5 as stated: at year 1998 (in the driver's range
when `start_year = 1998`) the code derives "1998--1", not "1998-99" —
`str(1998-2000+1)` is "-1" and `zfill(2)` pads nothing — so the season
string is not the year followed by the two-digit next year. -/
theorem C5_counterexample :
    (1998 : Int) ∈ yearRange 1998 1998 ∧
    seasonString 1998 = "1998--1" ∧
    seasonStringSpec 1998 = "1998-99" ∧
    seasonString 1998 ≠ seasonStringSpec 1998 :=
  ⟨by decide, by decide, by decide, by decide⟩

/-- C6: an exception raised by the per-season fetch (`runSeason`
returning `Except.error`) is caught and recorded in the run summary as a
failure with the error message; every season of the range still appears
in the summary (the loop is never aborted), and the summary's total shot
count is the sum of the successful seasons' shot counts. -/
theorem C6_driver_error_handling (a b : Int)
    (runSeason : String → Except String DataFrame) (year : Int) (e : String)
    (hmem : year ∈ yearRange a b)
    (herr : runSeason (seasonString year) = Except.error e) :
    (seasonString year, SeasonOutcome.failure e) ∈ get_all_seasons a b runSeason ∧
    (get_all_seasons a b runSeason).map Prod.fst =
      (yearRange a b).map seasonString ∧
    totalShots (get_all_seasons a b runSeason) =
      ((yearRange a b).filterMap (fun y =>
        match runSeason (seasonString y) with
        | Except.ok df => some df.length
        | Except.error _ => none)).sum := by
  refine ⟨?_, get_all_seasons_keys a b runSeason, ?_⟩
  · unfold get_all_seasons
    rw [List.mem_map]
    exact ⟨year, hmem, by simp [herr]⟩
  · unfold totalShots get_all_seasons
    rw [List.filterMap_map]
    have hfun : ∀ y ∈ yearRange a b,
        ((fun p : String × SeasonOutcome =>
            match p.2 with
            | SeasonOutcome.success n _ => some n
            | SeasonOutcome.failure _ => none) ∘
          (fun year =>
            let s := seasonString year
            match runSeason s with
            | Except.ok df => (s, SeasonOutcome.success df.length (outputFile s))
            | Except.error e => (s, SeasonOutcome.failure e))) y =
        (fun y =>
          match runSeason (seasonString y) with
          | Except.ok df => some df.length
          | Except.error _ => none) y := by
      intro y _
      cases h : runSeason (seasonString y) <;> simp [h, Function.comp]
    rw [List.filterMap_congr hfun]

def c6oracle : String → Except String DataFrame :=
  fun s => if s = seasonString 2001 then Except.error "API down"
           else Except.ok [⟨1, 2, 3⟩]

/-- Witness for C6: a three-season run whose middle season raises; it is
recorded as a failure, all three seasons appear, and the total is the
sum over the two successful seasons. -/
theorem C6_driver_error_handling_witness :
    (seasonString 2001, SeasonOutcome.failure "API down") ∈
        get_all_seasons 2000 2002 c6oracle ∧
    (get_all_seasons 2000 2002 c6oracle).map Prod.fst =
      (yearRange 2000 2002).map seasonString ∧
    totalShots (get_all_seasons 2000 2002 c6oracle) =
      ((yearRange 2000 2002).filterMap (fun y =>
        match c6oracle (seasonString y) with
        | Except.ok df => some df.length
        | Except.error _ => none)).sum :=
  C6_driver_error_handling 2000 2002 c6oracle 2001 "API down" (by decide) rfl

/-- C10: the driver marks a season successful exactly when the fetcher
returns without raising.  First conjunct: when the output file is absent
and every team fails (the embedded fetcher then returns an empty
DataFrame without raising), the driver still records
`success` with 0 shots and the output-file path, and that output file
still does not exist afterwards — it was never created.  Second
conjunct: whenever the per-season call returns without raising, the
summary records that season as a success with the returned row count
and the output-file path.  Third conjunct: a `failure` entry in the
summary can only come from the per-season call raising
(`Except.error`). -/
theorem C10_success_on_no_raise
    (delay save_every : Nat) (all_teams : List Team)
    (fetch : String → Team → Except String DataFrame)
    (st : SeasonsState) (year : Int)
    (a b : Int) (runSeason : String → Except String DataFrame) (s' e : String)
    (hout : st.fs (outputFile (seasonString year)) = none)
    (hfail : ∀ t ∈ all_teams, failOrEmpty (fetch (seasonString year) t) = true) :
    ((seasonStep delay save_every all_teams fetch st year).results =
        st.results ++
          [(seasonString year,
            SeasonOutcome.success 0 (outputFile (seasonString year)))] ∧
      (seasonStep delay save_every all_teams fetch st year).fs
          (outputFile (seasonString year)) = none) ∧
    (∀ y : Int, ∀ df : DataFrame, y ∈ yearRange a b →
      runSeason (seasonString y) = Except.ok df →
      (seasonString y, SeasonOutcome.success df.length (outputFile (seasonString y))) ∈
        get_all_seasons a b runSeason) ∧
    ((s', SeasonOutcome.failure e) ∈ get_all_seasons a b runSeason →
      runSeason s' = Except.error e) := by
  refine ⟨?_, ?_, ?_⟩
  · obtain ⟨h1, h2⟩ := foldl_all_fail (seasonString year) save_every
      (fetch (seasonString year)) all_teams 1 initState hfail rfl
    have hres : get_all_shots_season (seasonString year) delay save_every st.fs
        all_teams (fetch (seasonString year)) =
        ([], (runLoop (seasonString year) save_every
          (fetch (seasonString year)) all_teams).events) := by
      simp only [get_all_shots_season, hout]
      rw [if_neg (by simp [runLoop, h1])]
    have hnc : ∀ ev ∈ (runLoop (seasonString year) save_every
        (fetch (seasonString year)) all_teams).events, ∃ tid, ev = Ev.netCall tid := by
      intro ev hev
      rcases h2 ev hev with hmem | hok
      · simp [initState] at hmem
      · exact hok
    simp only [seasonStep]
    rw [hres]
    constructor
    · rfl
    · simp only
      rw [runFS_of_netCalls _ hnc st.fs]
      exact hout
  · intro y df hy hok
    unfold get_all_seasons
    rw [List.mem_map]
    exact ⟨y, hy, by simp [hok]⟩
  · intro hmem
    unfold get_all_seasons at hmem
    rw [List.mem_map] at hmem
    obtain ⟨y, hy, heq⟩ := hmem
    cases h : runSeason (seasonString y) with
    | ok df =>
      simp only [h] at heq
      simp at heq
    | error e' =>
      simp only [h] at heq
      simp only [Prod.mk.injEq, SeasonOutcome.failure.injEq] at heq
      rw [← heq.1, h, heq.2]

def c10teams : List Team := [⟨1, "A"⟩, ⟨2, "B"⟩]

def c10fetch : String → Team → Except String DataFrame :=
  fun _ _ => Except.error "down"

def c10oracle : String → Except String DataFrame :=
  fun _ => Except.error "E"

def c10init : SeasonsState := ⟨fun _ => none, [], []⟩

def c10okOracle : String → Except String DataFrame :=
  fun _ => Except.ok [⟨1, 2, 3⟩]

/-- Witness for C10: a season in which every team raises is recorded as
`success` with 0 shots and an output file that was never created; a
season whose call returns one row is recorded as a success with count 1;
a concrete failure entry traces back to the oracle raising. -/
theorem C10_success_on_no_raise_witness :
    ((seasonStep 0 5 c10teams c10fetch c10init 2024).results =
        c10init.results ++
          [(seasonString 2024,
            SeasonOutcome.success 0 (outputFile (seasonString 2024)))] ∧
      (seasonStep 0 5 c10teams c10fetch c10init 2024).fs
          (outputFile (seasonString 2024)) = none) ∧
    ((seasonString 2024,
        SeasonOutcome.success 1 (outputFile (seasonString 2024))) ∈
      get_all_seasons 2024 2024 c10okOracle) ∧
    ((seasonString 2024, SeasonOutcome.failure "E") ∈
        get_all_seasons 2024 2024 c10oracle →
      c10oracle (seasonString 2024) = Except.error "E") :=
  ⟨(C10_success_on_no_raise 0 5 c10teams c10fetch c10init 2024 2024 2024 c10oracle
      (seasonString 2024) "E" rfl (by decide)).1,
   (C10_success_on_no_raise 0 5 c10teams c10fetch c10init 2024 2024 2024 c10okOracle
      (seasonString 2024) "E" rfl (by decide)).2.1 2024 [⟨1, 2, 3⟩] (by decide) rfl,
   (C10_success_on_no_raise 0 5 c10teams c10fetch c10init 2024 2024 2024 c10oracle
      (seasonString 2024) "E" rfl (by decide)).2.2⟩

def cexTeamA : Team := ⟨1, "Hawks"⟩

def cexTeamB : Team := ⟨2, "Celtics"⟩

def cexFetch : Team → Except String DataFrame :=
  fun t => if t.id = 1 then Except.ok [⟨1, 0, 0⟩] else Except.error "timeout"

/-- Counterexample for C2 as stated: with `save_every = 2`, team 1
succeeding with one row and team 2 (the `save_every`-th team) raising,
the checkpoint condition of the claim holds after team 2 — the index is
a multiple of `save_every` and successful results exist — yet the events
of that iteration contain no progress write: the exception jumps past
the checkpoint code, which sits inside the `try`. -/
theorem C2_counterexample :
    2 % 2 = 0 ∧
    cexFetch ([cexTeamA, cexTeamB].get ⟨1, by decide⟩) = Except.error "timeout" ∧
    (stateAfter "2024-25" 2 cexFetch [cexTeamA, cexTeamB] 2).all_shots ≠ [] ∧
    Ev.fileWrite (progressFile "2024-25")
        ((stateAfter "2024-25" 2 cexFetch [cexTeamA, cexTeamB] 2).all_shots.flatten) ∉
      stepTrace "2024-25" 2 cexFetch
        (stateAfter "2024-25" 2 cexFetch [cexTeamA, cexTeamB] 1)
        (2, [cexTeamA, cexTeamB].get ⟨1, by decide⟩) :=
  ⟨rfl, rfl, by decide, by decide⟩

/-- C2 (amended): after every `save_every`-th team whose own fetch did
not raise, if any successful per-team results exist at that point, the
iteration's events include overwriting the progress-snapshot file with
their concatenation.  (Failed teams do advance the index counter, so a
later team's checkpoint accounts for teams that failed before it — but
when the `save_every`-th team itself raises, that checkpoint is skipped,
see the counterexample.) -/
theorem C2_checkpoint (season : String) (save_every : Nat)
    (fetch : Team → Except String DataFrame) (ts : List Team) (k : Nat)
    (df : DataFrame) (h : k < ts.length)
    (hmod : (k + 1) % save_every = 0)
    (hok : fetch ts[k] = Except.ok df)
    (hne : (stateAfter season save_every fetch ts (k + 1)).all_shots ≠ []) :
    Ev.fileWrite (progressFile season)
        ((stateAfter season save_every fetch ts (k + 1)).all_shots.flatten) ∈
      stepTrace season save_every fetch (stateAfter season save_every fetch ts k)
        (k + 1, ts[k]) := by
  rw [stateAfter_succ season save_every fetch ts k h] at hne ⊢
  simp only [stepTrace, teamStep, teamStepCore, hok] at hne ⊢
  simp [hmod, hne]

def cwTeamA : Team := ⟨1, "Hawks"⟩

def cwTeamB : Team := ⟨2, "Celtics"⟩

def cwFetch : Team → Except String DataFrame :=
  fun t => if t.id = 1 then Except.ok [⟨1, 0, 0⟩] else Except.ok [⟨0, 3, 4⟩]

/-- Witness for the amended C2: with `save_every = 2` and both teams
succeeding, the second iteration's events contain the progress write of
the concatenated results. -/
theorem C2_checkpoint_witness :
    Ev.fileWrite (progressFile "2024-25")
        ((stateAfter "2024-25" 2 cwFetch [cwTeamA, cwTeamB] 2).all_shots.flatten) ∈
      stepTrace "2024-25" 2 cwFetch
        (stateAfter "2024-25" 2 cwFetch [cwTeamA, cwTeamB] 1)
        (2, [cwTeamA, cwTeamB][1]) :=
  C2_checkpoint "2024-25" 2 cwFetch [cwTeamA, cwTeamB] 1 [⟨0, 3, 4⟩]
    (by decide) (by decide) rfl (by decide)

/-! ### Renderer claims -/

theorem zip_map_filter (p : Row → Bool) (df : List Row) :
    ((df.filter p).map (fun r => r.LOC_X)).zip
        ((df.filter p).map (fun r => r.LOC_Y + 60)) =
      df.filterMap (fun r =>
        if p r then some (r.LOC_X, r.LOC_Y + 60) else none) := by
  rw [List.zip_map']
  induction df with
  | nil => rfl
  | cons r df ih =>
    by_cases hp : p r
    · simp [List.filter_cons, List.filterMap_cons, hp, ih]
    · simp [List.filter_cons, List.filterMap_cons, hp, ih]

theorem filter_flag_length (df : List Row) :
    (df.filter (fun r => r.SHOT_MADE_FLAG == 1)).length +
      (df.filter (fun r => r.SHOT_MADE_FLAG == 0)).length =
    df.countP (fun r => r.SHOT_MADE_FLAG == 1 || r.SHOT_MADE_FLAG == 0) := by
  induction df with
  | nil => rfl
  | cons r df ih =>
    by_cases h1 : r.SHOT_MADE_FLAG = 1
    · simp [List.filter_cons, List.countP_cons, h1]
      omega
    · by_cases h0 : r.SHOT_MADE_FLAG = 0
      · simp [List.filter_cons, List.countP_cons, h0]
        omega
      · simp [List.filter_cons, List.countP_cons, h1, h0, ih]

/-- C8: `draw_shots` issues one green and one red scatter call; pairing
the green call's coordinates yields exactly the rows with
`SHOT_MADE_FLAG == 1`, in dataset order, each at `(LOC_X, LOC_Y + 60)`;
the red call likewise for `SHOT_MADE_FLAG == 0`; and the two calls
together plot exactly as many points as there are rows whose flag is 0
or 1 — a row with any other flag value (e.g. 2) appears in neither. -/
theorem C8_draw_shots (df : DataFrame) :
    ((draw_shots df).1).c = "green" ∧ ((draw_shots df).2).c = "red" ∧
    ((draw_shots df).1).xs.zip ((draw_shots df).1).ys =
      df.filterMap (fun r =>
        if r.SHOT_MADE_FLAG == 1 then some (r.LOC_X, r.LOC_Y + 60) else none) ∧
    ((draw_shots df).2).xs.zip ((draw_shots df).2).ys =
      df.filterMap (fun r =>
        if r.SHOT_MADE_FLAG == 0 then some (r.LOC_X, r.LOC_Y + 60) else none) ∧
    ((draw_shots df).1).xs.length + ((draw_shots df).2).xs.length =
      df.countP (fun r => r.SHOT_MADE_FLAG == 1 || r.SHOT_MADE_FLAG == 0) := by
  refine ⟨rfl, rfl, ?_, ?_, ?_⟩
  · exact zip_map_filter (fun r => r.SHOT_MADE_FLAG == 1) df
  · exact zip_map_filter (fun r => r.SHOT_MADE_FLAG == 0) df
  · simp only [draw_shots, List.length_map]
    exact filter_flag_length df

/-- C9 (amended): `create_court` sets the x limits to −250..250 — a
margin beyond the ±220 court boundary lines it draws — the y limits to
0..470, and hides the ticks on both axes. -/
theorem C9_axes (color : String) :
    (create_court color).xlim = (-250, 250) ∧
    (create_court color).ylim = (0, 470) ∧
    (create_court color).xticks = [] ∧
    (create_court color).yticks = [] :=
  ⟨rfl, rfl, rfl, rfl⟩

/-- Counterexample for C9 as stated: the x limits are not the court
width ±220 — `ax.set_xlim(-250, 250)` uses ±250 (the boundary lines are
drawn at ±220, lines 6-7, but the axis range is wider). -/
theorem C9_counterexample :
    (create_court "black").xlim = (-250, 250) ∧
    (create_court "black").xlim ≠ ((-220 : Int), (220 : Int)) :=
  ⟨rfl, by decide⟩
